import Mathlib

/-!
Verification of the GladGrade API backend (`src/src/...`) against its
natural-language specification.  The JavaScript services, controllers and
middleware are embedded shallowly: table rows become structures, the
database state becomes explicit record-of-lists state passing, and every
query is the corresponding pure list operation.  The `pg` wrapper used by
the services (`db.query` returning the row list, `db.transaction`) is not
part of the sources; it is modelled from the spec's database collaborator
contract (§6) and transactional unit of work (§4.6).
-/

/-! ## Generic helpers -/

/-- Character-list prefix test (`a` starts the list `b`). -/
def startsWithChars : List Char → List Char → Bool
  | [], _ => true
  | _ :: _, [] => false
  | a :: as, b :: bs => a == b && startsWithChars as bs

/-- Character-list substring test: does `needle` occur inside the haystack? -/
def containsChars (needle : List Char) : List Char → Bool
  | [] => needle.isEmpty
  | c :: rest => startsWithChars needle (c :: rest) || containsChars needle rest

/-- SQL `column ILIKE '%pat%'`: case-insensitive substring match, as built by
`getAllUsers` in `adminService.js`. -/
def ilikeContains (hay pat : String) : Bool :=
  containsChars pat.toLower.data hay.toLower.data

/-- One insertion step of the `ORDER BY` embedding. -/
def insertBy (le : α → α → Bool) (x : α) : List α → List α
  | [] => [x]
  | y :: ys => if le x y then x :: y :: ys else y :: insertBy le x ys

/-- `ORDER BY` embedding: a stable insertion sort by the given comparison. -/
def sortBy (le : α → α → Bool) (l : List α) : List α :=
  l.foldr (insertBy le) []

theorem mem_insertBy (le : α → α → Bool) (x a : α) (l : List α) :
    a ∈ insertBy le x l ↔ a = x ∨ a ∈ l := by
  induction l with
  | nil => simp [insertBy]
  | cons y ys ih =>
    simp only [insertBy]
    by_cases h : le x y = true
    · simp [h]
    · simp only [h]
      simp [ih]
      tauto

theorem mem_sortBy (le : α → α → Bool) (a : α) (l : List α) :
    a ∈ sortBy le l ↔ a ∈ l := by
  induction l with
  | nil => simp [sortBy]
  | cons y ys ih =>
    simp only [sortBy, List.foldr] at *
    rw [mem_insertBy, ih]
    simp

theorem length_insertBy (le : α → α → Bool) (x : α) (l : List α) :
    (insertBy le x l).length = l.length + 1 := by
  induction l with
  | nil => rfl
  | cons y ys ih =>
    simp only [insertBy]
    by_cases h : le x y = true
    · simp [h]
    · simp [h, ih]

theorem length_sortBy (le : α → α → Bool) (l : List α) :
    (sortBy le l).length = l.length := by
  induction l with
  | nil => rfl
  | cons y ys ih =>
    simp only [sortBy, List.foldr] at *
    rw [length_insertBy, ih, List.length_cons]

/-! ## Pagination (the recurring `{ total, page, limit, ... }` envelope) -/

/-- `Math.ceil(a / b)` on non-negative integer inputs: JavaScript's float
division followed by ceiling, embedded as exact rational division and
`Nat.ceil`. -/
def jsCeilDiv (a b : Nat) : Nat := ⌈(a : ℚ) / (b : ℚ)⌉₊

structure Pagination where
  total : Nat
  page : Nat
  limit : Nat
  totalPages : Nat
  hasNextPage : Bool
  hasPrevPage : Bool
deriving Repr, DecidableEq

/-- The pagination object every paged list in `ratingService.js` /
`adminService.js` returns:
`{ total, page, limit, totalPages: Math.ceil(total/limit),
   hasNextPage: page < totalPages, hasPrevPage: page > 1 }`. -/
def mkPagination (total page limit : Nat) : Pagination :=
  { total := total
    page := page
    limit := limit
    totalPages := jsCeilDiv total limit
    hasNextPage := decide (page < jsCeilDiv total limit)
    hasPrevPage := decide (1 < page) }

structure Paged (α : Type) where
  data : List α
  pagination : Pagination
deriving Repr, DecidableEq

theorem jsCeilDiv_eq (a b : Nat) (hb : 0 < b) :
    jsCeilDiv a b = (a + b - 1) / b := by
  have hbQ : (0 : ℚ) < (b : ℚ) := by exact_mod_cast hb
  have hle : a ≤ b * ((a + b - 1) / b) := by
    have h : a ⌈/⌉ b ≤ (a + b - 1) / b ↔ a ≤ b * ((a + b - 1) / b) :=
      ceilDiv_le_iff_le_mul hb
    rw [Nat.ceilDiv_eq_add_pred_div] at h
    exact h.1 le_rfl
  apply le_antisymm
  · rw [jsCeilDiv, Nat.ceil_le, div_le_iff₀ hbQ]
    have h0 : (a : ℚ) ≤ (b : ℚ) * (((a + b - 1) / b : ℕ) : ℚ) := by exact_mod_cast hle
    linarith [h0]
  · have h2 : (a : ℚ) / b ≤ ((⌈(a : ℚ) / b⌉₊ : ℕ) : ℚ) := Nat.le_ceil _
    rw [div_le_iff₀ hbQ] at h2
    have h4 : a ≤ b * ⌈(a : ℚ) / b⌉₊ := by
      have h3 : (a : ℚ) ≤ (b : ℚ) * ((⌈(a : ℚ) / b⌉₊ : ℕ) : ℚ) := by linarith [h2]
      exact_mod_cast h3
    have h5 : a ⌈/⌉ b ≤ ⌈(a : ℚ) / b⌉₊ ↔ a ≤ b * ⌈(a : ℚ) / b⌉₊ :=
      ceilDiv_le_iff_le_mul hb
    rw [Nat.ceilDiv_eq_add_pred_div] at h5
    exact h5.2 h4

/-! ## Row types (from the SQL used by the services) -/

structure UserRow where
  id : Nat
  firebase_uid : String
  email : String
  first_name : String
  last_name : String
  telephone : String
  is_guest : Bool
  display_name : String
  photo_url : String
  primary_role_id : Nat
  is_active : Bool
  is_deleted : Bool
  date_created : Nat
  last_updated_at : Nat
  last_login_at : Nat
deriving Repr, DecidableEq

structure RatingRow where
  id : Nat
  business_type_id : Option Nat
  edu_location_id : Option Nat
  place_address : Option String
  place_id : Option String
  place_name : Option String
  rating_value : Int
  subcategory : Option String
  user_id : Nat
  date_created : Nat
deriving Repr, DecidableEq

structure ReviewRow where
  id : Nat
  consumer_rating_id : Nat
  review : Option String
  place_id : Option String
  is_private : Option Bool
  is_active : Bool
  user_id : Nat
  moderation_notes : Option String
  date_created : Nat
deriving Repr, DecidableEq

structure ImageRow where
  id : Nat
  image_type_id : Option Nat
  consumer_rating_id : Option Nat
  consumer_review_id : Option Nat
  edu_dorm_id : Option Nat
  user_id : Nat
  image_url : String
  order_by_number : Nat
  is_active : Bool
  moderation_notes : Option String
deriving Repr, DecidableEq

structure SurveyAnswerRow where
  id : Nat
  survey_question_id : Nat
  survey_questions_answer_id : Option Nat
  answer : Option String
  consumer_rating_id : Nat
  user_id : Nat
  date_created : Nat
deriving Repr, DecidableEq

structure GladPointsRow where
  id : Nat
  consumer_rating_id : Nat
  points : Nat
  user_id : Nat
  is_redeemed : Bool
deriving Repr, DecidableEq

/-- The relational state touched by `ratingService.js` / `mediaService`.
`nextRatingId` / `nextGladPointsId` model the database's surrogate-id
sequences (server-assigned ids). -/
structure RDB where
  ratings : List RatingRow
  reviews : List ReviewRow
  images : List ImageRow
  surveyAnswers : List SurveyAnswerRow
  gladPoints : List GladPointsRow
  users : List UserRow
  nextRatingId : Nat
  nextGladPointsId : Nat
deriving Repr, DecidableEq

/-- A database error as surfaced by `pg` (`error.code`, `error.message`). -/
structure DBErr where
  code : String
  message : String
deriving Repr, DecidableEq

/-- `createError(message, status, ...)` from `utils/errorUtils`. -/
structure AppError where
  message : String
  status : Nat
deriving Repr, DecidableEq

/-! ## ratingService.js: paginated list queries (C1) -/

/-- Options destructured by `getAllRatings`
(`const { page = 1, limit = 10, placeId, userId, businessTypeId } = options`). -/
structure GetAllRatingsOptions where
  page : Option Nat := none
  limit : Option Nat := none
  placeId : Option String := none
  userId : Option Nat := none
  businessTypeId : Option Nat := none
deriving Repr, DecidableEq

/-- The dynamic WHERE conditions of `getAllRatings`
(`ratingService.js:596-665`): one `AND` condition per provided (truthy)
filter field; the count query reuses the same conditions. -/
def getAllRatingsCond (o : GetAllRatingsOptions) (r : RatingRow) : Bool :=
  (match o.placeId with | some p => r.place_id == some p | none => true) &&
  (match o.userId with | some u => r.user_id == u | none => true) &&
  (match o.businessTypeId with | some b => r.business_type_id == some b | none => true)

/-- `getAllRatings` (`ratingService.js:596-665`).  The data query inner-joins
`users` (a rating without a matching user row is dropped; the `LEFT JOIN`
on `business_types` drops nothing), orders by `date_created DESC` and
applies `LIMIT $1 OFFSET $2` with `offset = (page - 1) * limit`; the count
query `SELECT COUNT(*) FROM consumer_ratings r` reuses the WHERE clause and
has no join.  `page` and `limit` default to 1 and 10. -/
def getAllRatings (st : RDB) (o : GetAllRatingsOptions) : Paged RatingRow :=
  let page := o.page.getD 1
  let limit := o.limit.getD 10
  let offset := (page - 1) * limit
  let rows := st.ratings.filter (fun r =>
    getAllRatingsCond o r && st.users.any (fun u => u.id == r.user_id))
  let sorted := sortBy (fun a b => Nat.ble b.date_created a.date_created) rows
  let data := (sorted.drop offset).take limit
  let totalCount := (st.ratings.filter (getAllRatingsCond o)).length
  { data := data, pagination := mkPagination totalCount page limit }

/-- Options destructured by `getAllReviews`
(`const { page = 1, limit = 10, placeId, userId } = options`). -/
structure GetAllReviewsOptions where
  page : Option Nat := none
  limit : Option Nat := none
  placeId : Option String := none
  userId : Option Nat := none
deriving Repr, DecidableEq

/-- The dynamic WHERE conditions of `getAllReviews` (`ratingService.js:672-736`). -/
def getAllReviewsCond (o : GetAllReviewsOptions) (r : ReviewRow) : Bool :=
  (match o.placeId with | some p => r.place_id == some p | none => true) &&
  (match o.userId with | some u => r.user_id == u | none => true)

/-- `getAllReviews` (`ratingService.js:672-736`): same shape as
`getAllRatings`; the data query inner-joins `users` and `consumer_ratings`,
the count query reuses the WHERE clause without joins. -/
def getAllReviews (st : RDB) (o : GetAllReviewsOptions) : Paged ReviewRow :=
  let page := o.page.getD 1
  let limit := o.limit.getD 10
  let offset := (page - 1) * limit
  let rows := st.reviews.filter (fun r =>
    getAllReviewsCond o r && st.users.any (fun u => u.id == r.user_id) &&
      st.ratings.any (fun cr => cr.id == r.consumer_rating_id))
  let sorted := sortBy (fun a b => Nat.ble b.date_created a.date_created) rows
  let data := (sorted.drop offset).take limit
  let totalCount := (st.reviews.filter (getAllReviewsCond o)).length
  { data := data, pagination := mkPagination totalCount page limit }

/-- A review row together with its attached images, as assembled by
`getReviewsByPlace` (`review.images = images.filter(...)`). -/
structure ReviewWithImages where
  review : ReviewRow
  images : List ImageRow
deriving Repr, DecidableEq

/-- `getReviewsByPlace(placeId, page = 1, limit = 10)`
(`ratingService.js:72-134`): public reviews of a place
(`is_active = TRUE AND is_private = FALSE`), inner-joined with `users` and
`consumer_ratings`, ordered by `date_created DESC`, with
`LIMIT $2 OFFSET $3`, `offset = (page - 1) * limit`; the count query
applies the same three conditions without joins.  Active images of the
returned page's reviews are then attached, ordered by `order_by_number`. -/
def getReviewsByPlace (st : RDB) (placeId : String) (page0 limit0 : Option Nat) :
    Paged ReviewWithImages :=
  let page := page0.getD 1
  let limit := limit0.getD 10
  let offset := (page - 1) * limit
  let rows := st.reviews.filter (fun r =>
    r.place_id == some placeId && r.is_active && r.is_private == some false &&
      st.users.any (fun u => u.id == r.user_id) &&
      st.ratings.any (fun cr => cr.id == r.consumer_rating_id))
  let sorted := sortBy (fun a b => Nat.ble b.date_created a.date_created) rows
  let reviews := (sorted.drop offset).take limit
  let totalCount := (st.reviews.filter (fun r =>
    r.place_id == some placeId && r.is_active && r.is_private == some false)).length
  let reviewIds := reviews.map (fun r => r.id)
  let images :=
    if reviewIds.length > 0 then
      sortBy (fun a b => Nat.ble a.order_by_number b.order_by_number)
        (st.images.filter (fun im =>
          (match im.consumer_review_id with
           | some rid => reviewIds.contains rid
           | none => false) && im.is_active))
    else []
  let data := reviews.map (fun r =>
    { review := r, images := images.filter (fun im => im.consumer_review_id == some r.id) })
  { data := data, pagination := mkPagination totalCount page limit }

/-- The pagination equations the spec claims for every paged list endpoint. -/
def pagedOk (p : Pagination) (page limit : Nat) : Prop :=
  p.page = page ∧ p.limit = limit ∧
  p.totalPages = (p.total + limit - 1) / limit ∧
  p.hasNextPage = decide (page < p.totalPages) ∧
  p.hasPrevPage = decide (1 < page)

theorem mkPagination_ok (total page limit : Nat) (h : 0 < limit) :
    pagedOk (mkPagination total page limit) page limit :=
  ⟨rfl, rfl, jsCeilDiv_eq total limit h, rfl, rfl⟩

/-- C1: for every paginated list operation (`getAllRatings`, `getAllReviews`,
`getReviewsByPlace`) and every state, with `limit > 0`, the returned
pagination object satisfies `totalPages = ceil(total/limit)`,
`hasNextPage = (page < totalPages)`, `hasPrevPage = (page > 1)`; the rows are
fetched with `offset = (page-1)*limit`; `page` and `limit` default to 1 and
10 when not provided; and for `limit = 10`, `total = 25`, `totalPages = 3`. -/
theorem C1_pagination_correct (st : RDB) (o : GetAllRatingsOptions)
    (o2 : GetAllReviewsOptions) (pid : String) (pg lim : Option Nat)
    (h1 : 0 < o.limit.getD 10) (h2 : 0 < o2.limit.getD 10)
    (h3 : 0 < lim.getD 10) :
    (pagedOk (getAllRatings st o).pagination (o.page.getD 1) (o.limit.getD 10) ∧
      (getAllRatings st o).data =
        ((sortBy (fun a b => Nat.ble b.date_created a.date_created)
            (st.ratings.filter (fun r =>
              getAllRatingsCond o r && st.users.any (fun u => u.id == r.user_id)))).drop
          ((o.page.getD 1 - 1) * o.limit.getD 10)).take (o.limit.getD 10)) ∧
    (pagedOk (getAllReviews st o2).pagination (o2.page.getD 1) (o2.limit.getD 10) ∧
      (getAllReviews st o2).data =
        ((sortBy (fun a b => Nat.ble b.date_created a.date_created)
            (st.reviews.filter (fun r =>
              getAllReviewsCond o2 r && st.users.any (fun u => u.id == r.user_id) &&
                st.ratings.any (fun cr => cr.id == r.consumer_rating_id)))).drop
          ((o2.page.getD 1 - 1) * o2.limit.getD 10)).take (o2.limit.getD 10)) ∧
    (pagedOk (getReviewsByPlace st pid pg lim).pagination (pg.getD 1) (lim.getD 10) ∧
      ∃ f, (getReviewsByPlace st pid pg lim).data =
        (((sortBy (fun a b => Nat.ble b.date_created a.date_created)
            (st.reviews.filter (fun r =>
              r.place_id == some pid && r.is_active && r.is_private == some false &&
                st.users.any (fun u => u.id == r.user_id) &&
                st.ratings.any (fun cr => cr.id == r.consumer_rating_id)))).drop
          ((pg.getD 1 - 1) * lim.getD 10)).take (lim.getD 10)).map f) ∧
    (getAllRatings st ⟨none, none, o.placeId, o.userId, o.businessTypeId⟩).pagination.page = 1 ∧
    (getAllRatings st ⟨none, none, o.placeId, o.userId, o.businessTypeId⟩).pagination.limit = 10 ∧
    (mkPagination 25 1 10).totalPages = 3 := by
  refine ⟨⟨mkPagination_ok _ _ _ h1, rfl⟩, ⟨mkPagination_ok _ _ _ h2, rfl⟩,
    ⟨mkPagination_ok _ _ _ h3, ?_⟩, rfl, rfl, ?_⟩
  · exact ⟨_, rfl⟩
  · show jsCeilDiv 25 10 = 3
    rw [jsCeilDiv_eq 25 10 (by norm_num)]

theorem C1_pagination_correct_witness :
    pagedOk (getAllRatings ⟨[], [], [], [], [], [], 1, 1⟩
      ⟨none, none, none, none, none⟩).pagination 1 10 :=
  (C1_pagination_correct ⟨[], [], [], [], [], [], 1, 1⟩
    ⟨none, none, none, none, none⟩ ⟨none, none, none, none⟩ "p1" none none
    (by decide) (by decide) (by decide)).1.1

/-! ## ratingService.js: getRatingsByPlace (C2) -/

/-- The bucket object `ratingCounts = {1:0,...,5:0}`. -/
structure RatingCounts where
  c1 : Nat
  c2 : Nat
  c3 : Nat
  c4 : Nat
  c5 : Nat
deriving Repr, DecidableEq

/-- The `ratings.forEach` body of `getRatingsByPlace`
(`ratingService.js:47-51`): increment the bucket matching `rating_value`
only when `rating_value >= 1 && rating_value <= 5`. -/
def bumpCount (c : RatingCounts) (v : Int) : RatingCounts :=
  if 1 ≤ v ∧ v ≤ 5 then
    if v = 1 then { c with c1 := c.c1 + 1 }
    else if v = 2 then { c with c2 := c.c2 + 1 }
    else if v = 3 then { c with c3 := c.c3 + 1 }
    else if v = 4 then { c with c4 := c.c4 + 1 }
    else { c with c5 := c.c5 + 1 }
  else c

/-- The value returned by `getRatingsByPlace`. -/
structure RatingsSummary where
  placeId : String
  averageRating : ℚ
  totalRatings : Nat
  ratingCounts : RatingCounts
  ratings : List RatingRow
deriving Repr, DecidableEq

/-- `getRatingsByPlace(placeId)` (`ratingService.js:9-63`): load every
rating of the place; if none, return the zero-filled summary; otherwise
`averageRating = (reduce (+) over rating_value) / count`, plus the bucket
histogram built by `bumpCount`. -/
def getRatingsByPlace (st : RDB) (placeId : String) : RatingsSummary :=
  let ratings := st.ratings.filter (fun r => r.place_id == some placeId)
  if ratings.length = 0 then
    { placeId := placeId, averageRating := 0, totalRatings := 0,
      ratingCounts := ⟨0, 0, 0, 0, 0⟩, ratings := [] }
  else
    let sum : ℚ := ratings.foldl (fun acc r => acc + (r.rating_value : ℚ)) 0
    let averageRating := sum / (ratings.length : ℚ)
    let counts := ratings.foldl (fun c r => bumpCount c r.rating_value) ⟨0, 0, 0, 0, 0⟩
    { placeId := placeId, averageRating := averageRating,
      totalRatings := ratings.length, ratingCounts := counts, ratings := ratings }

theorem bumpCount_c1 (c : RatingCounts) (v : Int) :
    (bumpCount c v).c1 = c.c1 + (if v = 1 then 1 else 0) := by
  unfold bumpCount
  split_ifs <;> simp_all

theorem bumpCount_c2 (c : RatingCounts) (v : Int) :
    (bumpCount c v).c2 = c.c2 + (if v = 2 then 1 else 0) := by
  unfold bumpCount
  split_ifs <;> simp_all

theorem bumpCount_c3 (c : RatingCounts) (v : Int) :
    (bumpCount c v).c3 = c.c3 + (if v = 3 then 1 else 0) := by
  unfold bumpCount
  split_ifs <;> simp_all

theorem bumpCount_c4 (c : RatingCounts) (v : Int) :
    (bumpCount c v).c4 = c.c4 + (if v = 4 then 1 else 0) := by
  unfold bumpCount
  split_ifs <;> simp_all

theorem bumpCount_c5 (c : RatingCounts) (v : Int) :
    (bumpCount c v).c5 = c.c5 + (if v = 5 then 1 else 0) := by
  unfold bumpCount
  split_ifs <;> simp_all <;> omega

theorem foldl_bumpCount (l : List RatingRow) (c : RatingCounts) :
    l.foldl (fun a r => bumpCount a r.rating_value) c =
      ⟨c.c1 + l.countP (fun r => r.rating_value == 1),
       c.c2 + l.countP (fun r => r.rating_value == 2),
       c.c3 + l.countP (fun r => r.rating_value == 3),
       c.c4 + l.countP (fun r => r.rating_value == 4),
       c.c5 + l.countP (fun r => r.rating_value == 5)⟩ := by
  induction l generalizing c with
  | nil => simp [List.countP, List.countP.go]
  | cons r t ih =>
    rw [List.foldl_cons, ih]
    simp only [List.countP_cons]
    have e1 := bumpCount_c1 c r.rating_value
    have e2 := bumpCount_c2 c r.rating_value
    have e3 := bumpCount_c3 c r.rating_value
    have e4 := bumpCount_c4 c r.rating_value
    have e5 := bumpCount_c5 c r.rating_value
    cases hb : bumpCount c r.rating_value
    rw [hb] at e1 e2 e3 e4 e5
    simp only at e1 e2 e3 e4 e5
    subst e1 e2 e3 e4 e5
    congr 1 <;> simp [beq_iff_eq] <;> split_ifs <;> simp_all <;> omega

theorem foldl_add_rat (l : List RatingRow) (a : ℚ) :
    l.foldl (fun acc r => acc + (r.rating_value : ℚ)) a =
      a + (l.map (fun r => (r.rating_value : ℚ))).sum := by
  induction l generalizing a with
  | nil => simp
  | cons r t ih => rw [List.foldl_cons, ih]; simp; ring

theorem countP_buckets_sum (l : List RatingRow) :
    l.countP (fun r => r.rating_value == 1) + l.countP (fun r => r.rating_value == 2) +
    l.countP (fun r => r.rating_value == 3) + l.countP (fun r => r.rating_value == 4) +
    l.countP (fun r => r.rating_value == 5) =
      l.countP (fun r => decide (1 ≤ r.rating_value ∧ r.rating_value ≤ 5)) := by
  induction l with
  | nil => simp
  | cons r t ih =>
    simp only [List.countP_cons]
    rw [← ih]
    by_cases h1 : r.rating_value = 1 <;> by_cases h2 : r.rating_value = 2 <;>
      by_cases h3 : r.rating_value = 3 <;> by_cases h4 : r.rating_value = 4 <;>
      by_cases h5 : r.rating_value = 5 <;>
      simp_all <;> omega

/-- C2: `getRatingsByPlace` returns the zero-filled summary when the place
has no ratings; otherwise `averageRating = sum(values)/count`,
`totalRatings` counts all loaded ratings, each bucket of the histogram
counts exactly the ratings with that value (values outside 1..5 appear in
no bucket but still count in `totalRatings` and the average), and the sum
of the buckets equals the number of ratings with value in 1..5. -/
theorem C2_ratings_summary (st : RDB) (pid : String) :
    (st.ratings.filter (fun r => r.place_id == some pid) = [] →
      getRatingsByPlace st pid = ⟨pid, 0, 0, ⟨0, 0, 0, 0, 0⟩, []⟩) ∧
    (st.ratings.filter (fun r => r.place_id == some pid) ≠ [] →
      (getRatingsByPlace st pid).averageRating =
        ((st.ratings.filter (fun r => r.place_id == some pid)).map
          (fun r => (r.rating_value : ℚ))).sum /
          (((st.ratings.filter (fun r => r.place_id == some pid)).length : ℚ)) ∧
      (getRatingsByPlace st pid).totalRatings =
        (st.ratings.filter (fun r => r.place_id == some pid)).length ∧
      (getRatingsByPlace st pid).ratings =
        st.ratings.filter (fun r => r.place_id == some pid) ∧
      (getRatingsByPlace st pid).ratingCounts =
        ⟨(st.ratings.filter (fun r => r.place_id == some pid)).countP
            (fun r => r.rating_value == 1),
         (st.ratings.filter (fun r => r.place_id == some pid)).countP
            (fun r => r.rating_value == 2),
         (st.ratings.filter (fun r => r.place_id == some pid)).countP
            (fun r => r.rating_value == 3),
         (st.ratings.filter (fun r => r.place_id == some pid)).countP
            (fun r => r.rating_value == 4),
         (st.ratings.filter (fun r => r.place_id == some pid)).countP
            (fun r => r.rating_value == 5)⟩) ∧
    ((getRatingsByPlace st pid).ratingCounts.c1 +
     (getRatingsByPlace st pid).ratingCounts.c2 +
     (getRatingsByPlace st pid).ratingCounts.c3 +
     (getRatingsByPlace st pid).ratingCounts.c4 +
     (getRatingsByPlace st pid).ratingCounts.c5 =
      (st.ratings.filter (fun r => r.place_id == some pid)).countP
        (fun r => decide (1 ≤ r.rating_value ∧ r.rating_value ≤ 5))) := by
  refine ⟨?_, ?_, ?_⟩
  · intro h
    simp [getRatingsByPlace, h]
  · intro h
    have hlen : ¬ (st.ratings.filter (fun r => r.place_id == some pid)).length = 0 := by
      intro hh
      exact h (List.length_eq_zero.1 hh)
    simp only [getRatingsByPlace]
    rw [if_neg hlen]
    refine ⟨?_, rfl, rfl, ?_⟩
    · rw [foldl_add_rat]
      simp
    · rw [foldl_bumpCount]
      simp
  · by_cases h : st.ratings.filter (fun r => r.place_id == some pid) = []
    · simp [getRatingsByPlace, h]
    · have hlen : ¬ (st.ratings.filter (fun r => r.place_id == some pid)).length = 0 := by
        intro hh
        exact h (List.length_eq_zero.1 hh)
      simp only [getRatingsByPlace]
      rw [if_neg hlen, foldl_bumpCount]
      simp only [Nat.zero_add]
      exact countP_buckets_sum _

theorem C2_ratings_summary_witness :
    (getRatingsByPlace
      ⟨[⟨1, none, none, none, some "P1", none, 5, none, 42, 0⟩],
        [], [], [], [], [], 2, 1⟩ "P1").totalRatings =
      (((⟨[⟨1, none, none, none, some "P1", none, 5, none, 42, 0⟩],
        [], [], [], [], [], 2, 1⟩ : RDB)).ratings.filter
          (fun r => r.place_id == some "P1")).length :=
  ((C2_ratings_summary
    ⟨[⟨1, none, none, none, some "P1", none, 5, none, 42, 0⟩],
      [], [], [], [], [], 2, 1⟩ "P1").2.1 (by decide)).2.1

/-! ## ratingService.js: addGladPoints (C3) -/

/-- Result of `addGladPoints`: either the re-read created row
(`gladPoints[0]`, `undefined` when the re-read finds nothing), or the
informational `{ message: ... }` object of the absorbed 23505 case. -/
inductive GladPointsResult where
  | created (row : Option GladPointsRow)
  | alreadyAwarded (message : String)
deriving Repr, DecidableEq

/-- The `INSERT INTO consumer_glad_points ... VALUES ($1, $2, $3, FALSE)
RETURNING id` of `addGladPoints`.  The database enforces the unique
`(consumer_rating_id, user_id)` constraint, raising error code 23505 on a
conflict; `inj` injects any other infrastructure failure of the INSERT. -/
def insertGladPoints (st : RDB) (inj : Option DBErr) (ratingId userId points : Nat) :
    Except DBErr (RDB × Nat) :=
  match inj with
  | some e => .error e
  | none =>
    if st.gladPoints.any (fun g => g.consumer_rating_id == ratingId && g.user_id == userId) then
      .error ⟨"23505", "duplicate key value violates unique constraint"⟩
    else
      .ok ({ st with
              gladPoints := st.gladPoints ++
                [⟨st.nextGladPointsId, ratingId, points, userId, false⟩],
              nextGladPointsId := st.nextGladPointsId + 1 },
           st.nextGladPointsId)

/-- `addGladPoints(ratingId, userId)` (`ratingService.js:467-501`): insert a
fixed 10 points with `is_redeemed = FALSE`; re-read the created record; on
error code 23505 return `{ message: 'Points already awarded for this
rating' }` instead of throwing; rethrow anything else as a 500. -/
def addGladPoints (st : RDB) (inj : Option DBErr) (ratingId userId : Nat) :
    RDB × Except AppError GladPointsResult :=
  let points := 10
  match insertGladPoints st inj ratingId userId points with
  | .ok (st', pointsId) =>
    (st', .ok (.created (st'.gladPoints.find? (fun g => g.id == pointsId))))
  | .error e =>
    if e.code = "23505" then
      (st, .ok (.alreadyAwarded "Points already awarded for this rating"))
    else
      (st, .error ⟨"Error adding glad points: " ++ e.message, 500⟩)

theorem find?_append_of_none (p : α → Bool) (l1 l2 : List α)
    (h : l1.find? p = none) : (l1 ++ l2).find? p = l2.find? p := by
  induction l1 with
  | nil => simp
  | cons a t ih =>
    cases hpa : p a
    · rw [List.find?_cons_of_neg _ (by simp [hpa])] at h
      rw [List.cons_append, List.find?_cons_of_neg _ (by simp [hpa])]
      exact ih h
    · rw [List.find?_cons_of_pos _ hpa] at h
      cases h

/-- C3: `addGladPoints` inserts one row with the fixed amount 10 and
`is_redeemed = FALSE`; a unique-constraint violation (code 23505) is
returned as an informational non-error result, so a second call for the
same `(ratingId, userId)` pair leaves exactly one persisted row and
succeeds informationally; any other insert failure propagates as an
error. -/
theorem C3_glad_points_idempotent (st : RDB) (rid uid : Nat)
    (hfresh : ∀ g ∈ st.gladPoints, g.id < st.nextGladPointsId)
    (hnew : ∀ g ∈ st.gladPoints, ¬(g.consumer_rating_id = rid ∧ g.user_id = uid)) :
    (∃ st1 row,
      addGladPoints st none rid uid = (st1, .ok (.created (some row))) ∧
      row.points = 10 ∧ row.is_redeemed = false ∧
      row.consumer_rating_id = rid ∧ row.user_id = uid ∧
      (st1.gladPoints.filter
        (fun g => g.consumer_rating_id == rid && g.user_id == uid)).length = 1 ∧
      addGladPoints st1 none rid uid =
        (st1, .ok (.alreadyAwarded "Points already awarded for this rating"))) ∧
    (∀ e : DBErr, e.code ≠ "23505" →
      addGladPoints st (some e) rid uid =
        (st, .error ⟨"Error adding glad points: " ++ e.message, 500⟩)) := by
  constructor
  · have hany : st.gladPoints.any
        (fun g => g.consumer_rating_id == rid && g.user_id == uid) = false := by
      rw [List.any_eq_false]
      intro g hg
      have hng := hnew g hg
      simp only [Bool.and_eq_true, beq_iff_eq]
      tauto
    refine ⟨{ st with
        gladPoints := st.gladPoints ++ [⟨st.nextGladPointsId, rid, 10, uid, false⟩],
        nextGladPointsId := st.nextGladPointsId + 1 },
      ⟨st.nextGladPointsId, rid, 10, uid, false⟩, ?_, rfl, rfl, rfl, rfl, ?_, ?_⟩
    · simp only [addGladPoints, insertGladPoints, hany, Bool.false_eq_true, if_false]
      have hnone : st.gladPoints.find?
          (fun g => g.id == st.nextGladPointsId) = none := by
        rw [List.find?_eq_none]
        intro g hg
        have := hfresh g hg
        simp only [beq_iff_eq]
        omega
      rw [find?_append_of_none _ _ _ hnone]
      simp [List.find?]
    · have hfil : st.gladPoints.filter
          (fun g => g.consumer_rating_id == rid && g.user_id == uid) = [] := by
        rw [List.filter_eq_nil]
        intro g hg
        have hng := hnew g hg
        simp only [Bool.and_eq_true, beq_iff_eq]
        tauto
      simp [List.filter_append, hfil]
    · have hany2 : ((st.gladPoints ++
          [(⟨st.nextGladPointsId, rid, 10, uid, false⟩ : GladPointsRow)]).any
          (fun g => g.consumer_rating_id == rid && g.user_id == uid)) = true := by
        rw [List.any_eq_true]
        exact ⟨⟨st.nextGladPointsId, rid, 10, uid, false⟩,
          List.mem_append_right _ (by simp), by simp⟩
      simp only [addGladPoints, insertGladPoints]
      rw [hany2]
      rfl
  · intro e he
    simp only [addGladPoints, insertGladPoints]
    rw [if_neg he]

theorem C3_glad_points_idempotent_witness :
    (∃ st1 row,
      addGladPoints ⟨[], [], [], [], [], [], 1, 1⟩ none 1 2 =
        (st1, .ok (.created (some row))) ∧
      row.points = 10 ∧ row.is_redeemed = false ∧
      row.consumer_rating_id = 1 ∧ row.user_id = 2 ∧
      (st1.gladPoints.filter
        (fun g => g.consumer_rating_id == 1 && g.user_id == 2)).length = 1 ∧
      addGladPoints st1 none 1 2 =
        (st1, .ok (.alreadyAwarded "Points already awarded for this rating"))) ∧
    (∀ e : DBErr, e.code ≠ "23505" →
      addGladPoints ⟨[], [], [], [], [], [], 1, 1⟩ (some e) 1 2 =
        (⟨[], [], [], [], [], [], 1, 1⟩,
          .error ⟨"Error adding glad points: " ++ e.message, 500⟩)) :=
  C3_glad_points_idempotent ⟨[], [], [], [], [], [], 1, 1⟩ 1 2
    (by simp) (by simp)

/-! ## ratingService.js: deleteRating inside a transaction (C4) -/

/-- Modelled from the spec: the `db.transaction` helper the services call is
not under `src/` (`config/db.js` exports only `query`); per §4.6 it runs
the statements in order on one connection and, on any failure, rolls back
all writes and surfaces one error, so the caller's observable state is the
original one.  A statement is a state transformer that may fail. -/
def runTransaction : List (RDB → Except DBErr RDB) → RDB → Except DBErr RDB
  | [], st => .ok st
  | step :: rest, st =>
    match step st with
    | .ok st' => runTransaction rest st'
    | .error e => .error e

/-- Apply a list of pure statements in order (the fault-free behaviour). -/
def applySteps (steps : List (RDB → RDB)) (st : RDB) : RDB :=
  steps.foldl (fun s f => f s) st

/-- Wrap pure statements as fallible ones: statement number `i` (0-based)
fails with a connection error when `fault = some i`. -/
def withFault : List (RDB → RDB) → Option Nat → List (RDB → Except DBErr RDB)
  | [], _ => []
  | s :: rest, fault =>
    (fun st =>
      if fault = some 0 then .error ⟨"57P01", "connection failure"⟩
      else .ok (s st)) ::
      withFault rest (match fault with | some (n + 1) => some n | _ => none)

/-- The DELETE statements of `deleteRating` (`ratingService.js:244-285`) in
program order: review images and reviews (only when the pre-read found
reviews), then rating images, survey answers, glad points, and finally the
rating row itself. -/
def deleteRatingSteps (id : Nat) (reviewIds : List Nat) : List (RDB → RDB) :=
  (if reviewIds.length > 0 then
    [fun st => { st with images := st.images.filter (fun im =>
        !(match im.consumer_review_id with
          | some rid => reviewIds.contains rid
          | none => false)) },
     fun st => { st with reviews := st.reviews.filter (fun r =>
        !(r.consumer_rating_id == id)) }]
   else []) ++
  [fun st => { st with images := st.images.filter (fun im =>
      !(im.consumer_rating_id == some id)) },
   fun st => { st with surveyAnswers := st.surveyAnswers.filter (fun a =>
      !(a.consumer_rating_id == id)) },
   fun st => { st with gladPoints := st.gladPoints.filter (fun g =>
      !(g.consumer_rating_id == id)) },
   fun st => { st with ratings := st.ratings.filter (fun r => !(r.id == id)) }]

/-- `deleteRating(id)` (`ratingService.js:236-294`): pre-read the rating's
review ids, then run the delete sequence in one transaction; on success
return `true`, on failure the transaction rolls back (the state stays the
original) and a 500 error is thrown. -/
def deleteRating (st : RDB) (fault : Option Nat) (id : Nat) :
    RDB × Except AppError Bool :=
  let reviewsResult := st.reviews.filter (fun r => r.consumer_rating_id == id)
  let reviewIds := reviewsResult.map (fun r => r.id)
  match runTransaction (withFault (deleteRatingSteps id reviewIds) fault) st with
  | .ok st' => (st', .ok true)
  | .error e => (st, .error ⟨"Error deleting rating: " ++ e.message, 500⟩)

theorem runTransaction_withFault_none (steps : List (RDB → RDB)) (st : RDB) :
    runTransaction (withFault steps none) st = .ok (applySteps steps st) := by
  induction steps generalizing st with
  | nil => rfl
  | cons s rest ih =>
    simp only [withFault, runTransaction, applySteps, List.foldl_cons]
    rw [if_neg (by simp)]
    exact ih (s st)

theorem runTransaction_withFault_some (steps : List (RDB → RDB)) (st : RDB)
    (i : Nat) (hi : i < steps.length) :
    runTransaction (withFault steps (some i)) st =
      .error ⟨"57P01", "connection failure"⟩ := by
  induction steps generalizing st i with
  | nil => cases hi
  | cons s rest ih =>
    cases i with
    | zero =>
      simp only [withFault, runTransaction]
      simp
    | succ n =>
      simp only [withFault, runTransaction]
      rw [if_neg (by simp)]
      exact ih (s st) n (by simpa using hi)

/-- C4: `deleteRating` removes, inside a single transaction, the rating's
review images and reviews, then its own images, survey answers and
GladPoints rows, and only then the rating row (`ratings` is untouched by
every statement but the last); after a successful call no row in any of
the five tables references the rating id; when any statement fails, the
transaction rolls back and the state is unchanged. -/
theorem C4_delete_rating_cascade (st : RDB) (id : Nat) :
    (∀ st', deleteRating st none id = (st', .ok true) →
      (∀ r ∈ st'.reviews, ¬ r.consumer_rating_id = id) ∧
      (∀ im ∈ st'.images, ¬ im.consumer_rating_id = some id) ∧
      (∀ im ∈ st'.images, ∀ rid, im.consumer_review_id = some rid →
        ¬ rid ∈ ((st.reviews.filter
          (fun r => r.consumer_rating_id == id)).map (fun r => r.id))) ∧
      (∀ a ∈ st'.surveyAnswers, ¬ a.consumer_rating_id = id) ∧
      (∀ g ∈ st'.gladPoints, ¬ g.consumer_rating_id = id) ∧
      (∀ r ∈ st'.ratings, ¬ r.id = id)) ∧
    (∃ st', deleteRating st none id = (st', .ok true)) ∧
    ((applySteps ((deleteRatingSteps id ((st.reviews.filter
        (fun r => r.consumer_rating_id == id)).map (fun r => r.id))).dropLast)
        st).ratings = st.ratings) ∧
    (∀ i, i < (deleteRatingSteps id ((st.reviews.filter
        (fun r => r.consumer_rating_id == id)).map (fun r => r.id))).length →
      deleteRating st (some i) id =
        (st, .error ⟨"Error deleting rating: " ++ "connection failure", 500⟩)) := by
  have hrun := runTransaction_withFault_none
    (deleteRatingSteps id ((st.reviews.filter
      (fun r => r.consumer_rating_id == id)).map (fun r => r.id))) st
  refine ⟨?_, ?_, ?_, ?_⟩
  · intro st' hdel
    have hst' : st' = applySteps (deleteRatingSteps id
        ((st.reviews.filter (fun r => r.consumer_rating_id == id)).map
          (fun r => r.id))) st := by
      simp only [deleteRating, hrun] at hdel
      exact (congrArg Prod.fst hdel).symm
    subst hst'
    by_cases hlen : 0 < ((st.reviews.filter
        (fun r => r.consumer_rating_id == id)).map (fun r => r.id)).length
    · simp only [deleteRatingSteps, if_pos hlen, applySteps, List.cons_append,
        List.nil_append, List.foldl_cons, List.foldl_nil]
      refine ⟨?_, ?_, ?_, ?_, ?_, ?_⟩
      · intro r hr
        simp only [List.mem_filter, Bool.not_eq_eq_eq_not, Bool.not_true,
          beq_eq_false_iff_ne, ne_eq] at hr
        exact hr.2
      · intro im him
        simp only [List.mem_filter, Bool.not_eq_eq_eq_not, Bool.not_true,
          beq_eq_false_iff_ne, ne_eq] at him
        exact him.2
      · intro im him rid hrid
        simp only [List.mem_filter] at him
        have h1 := him.1.2
        rw [hrid] at h1
        simp only [Bool.not_eq_eq_eq_not, Bool.not_true] at h1
        intro hmem
        simp at h1
        obtain ⟨r0, hr0, hid⟩ := List.mem_map.1 hmem
        have h2 := List.mem_filter.1 hr0
        exact h1 r0 h2.1 (by simpa using h2.2) hid
      · intro a ha
        simp only [List.mem_filter, Bool.not_eq_eq_eq_not, Bool.not_true,
          beq_eq_false_iff_ne, ne_eq] at ha
        exact ha.2
      · intro g hg
        simp only [List.mem_filter, Bool.not_eq_eq_eq_not, Bool.not_true,
          beq_eq_false_iff_ne, ne_eq] at hg
        exact hg.2
      · intro r hr
        simp only [List.mem_filter, Bool.not_eq_eq_eq_not, Bool.not_true,
          beq_eq_false_iff_ne, ne_eq] at hr
        exact hr.2
    · have hnil : st.reviews.filter (fun r => r.consumer_rating_id == id) = [] := by
        rcases List.eq_nil_or_concat (st.reviews.filter
          (fun r => r.consumer_rating_id == id)) with h | ⟨l, a, h⟩
        · exact h
        · exfalso
          apply hlen
          rw [h]
          simp
      simp only [deleteRatingSteps, if_neg hlen, List.nil_append, applySteps,
        List.foldl_cons, List.foldl_nil]
      refine ⟨?_, ?_, ?_, ?_, ?_, ?_⟩
      · intro r hr hcr
        have : r ∈ st.reviews.filter (fun r => r.consumer_rating_id == id) := by
          rw [List.mem_filter]
          exact ⟨hr, by simp [hcr]⟩
        rw [hnil] at this
        cases this
      · intro im him
        simp only [List.mem_filter, Bool.not_eq_eq_eq_not, Bool.not_true,
          beq_eq_false_iff_ne, ne_eq] at him
        exact him.2
      · intro im him rid hrid
        rw [hnil]
        simp
      · intro a ha
        simp only [List.mem_filter, Bool.not_eq_eq_eq_not, Bool.not_true,
          beq_eq_false_iff_ne, ne_eq] at ha
        exact ha.2
      · intro g hg
        simp only [List.mem_filter, Bool.not_eq_eq_eq_not, Bool.not_true,
          beq_eq_false_iff_ne, ne_eq] at hg
        exact hg.2
      · intro r hr
        simp only [List.mem_filter, Bool.not_eq_eq_eq_not, Bool.not_true,
          beq_eq_false_iff_ne, ne_eq] at hr
        exact hr.2
  · exact ⟨applySteps (deleteRatingSteps id ((st.reviews.filter
        (fun r => r.consumer_rating_id == id)).map (fun r => r.id))) st,
      by simp only [deleteRating, hrun]⟩
  · by_cases hlen : ((st.reviews.filter
        (fun r => r.consumer_rating_id == id)).map (fun r => r.id)).length > 0
    · simp only [deleteRatingSteps]
      rw [if_pos hlen]
      rfl
    · simp only [deleteRatingSteps]
      rw [if_neg hlen]
      rfl
  · intro i hi
    have hfail := runTransaction_withFault_some
      (deleteRatingSteps id ((st.reviews.filter
        (fun r => r.consumer_rating_id == id)).map (fun r => r.id))) st i hi
    simp only [deleteRating, hfail]

/-! ## Services used by the controllers (C5, C6, C7) -/

/-- `getRatingById(id)` (`ratingService.js:141-156`): the row or null. -/
def getRatingById (st : RDB) (id : Nat) : Option RatingRow :=
  (st.ratings.filter (fun r => r.id == id)).head?

/-- `updateRating(id, { ratingValue })` (`ratingService.js:211-229`): the
fixed SQL `UPDATE consumer_ratings SET rating_value = $1 WHERE id = $2`,
then a re-read. -/
def updateRating (st : RDB) (id : Nat) (ratingValue : Int) :
    RDB × Option RatingRow :=
  let st' := { st with ratings := st.ratings.map (fun r =>
    if r.id == id then { r with rating_value := ratingValue } else r) }
  (st', getRatingById st' id)

/-- The SET clause of `updateRating` is the fixed text
`SET rating_value = $1`: `rating_value` is always assigned, whatever the
input object contains. -/
def updateRatingSetColumns : List String := ["rating_value"]

/-- `getReviewById(id)` (`ratingService.js:301-330`): the review row
inner-joined with its rating, with its active images attached. -/
def getReviewById (st : RDB) (id : Nat) : Option ReviewWithImages :=
  match (st.reviews.filter (fun r =>
      r.id == id && st.ratings.any (fun cr => cr.id == r.consumer_rating_id))).head? with
  | none => none
  | some r =>
    some { review := r,
           images := sortBy (fun a b => Nat.ble a.order_by_number b.order_by_number)
             (st.images.filter (fun im =>
               im.consumer_review_id == some r.id && im.is_active)) }

/-- The input object of `updateReview` (`const { review, isPrivate } =
reviewData`); a missing field is JavaScript `undefined`, transmitted by
`pg` as SQL `NULL`. -/
structure ReviewUpdateInput where
  review : Option String
  isPrivate : Option Bool
deriving Repr, DecidableEq

/-- The SET clause of `updateReview` (`ratingService.js:381-401`) is the
fixed text `SET review = $1, is_private = $2`: both columns are always
assigned, whatever the input object contains. -/
def updateReviewSetColumns : List String := ["review", "is_private"]

/-- `updateReview(id, reviewData)` (`ratingService.js:381-401`): run the
fixed-SET update, then re-read. -/
def updateReview (st : RDB) (id : Nat) (d : ReviewUpdateInput) :
    RDB × Option ReviewWithImages :=
  let st' := { st with reviews := st.reviews.map (fun r =>
    if r.id == id then { r with review := d.review, is_private := d.isPrivate } else r) }
  (st', getReviewById st' id)

/-- The two DELETE statements of `deleteReview` (`ratingService.js:408-431`),
run inside one transaction: review images first, then the review. -/
def deleteReviewSteps (id : Nat) : List (RDB → RDB) :=
  [fun st => { st with images := st.images.filter (fun im =>
      !(im.consumer_review_id == some id)) },
   fun st => { st with reviews := st.reviews.filter (fun r => !(r.id == id)) }]

/-- `deleteReview(id)` (`ratingService.js:408-431`). -/
def deleteReview (st : RDB) (fault : Option Nat) (id : Nat) :
    RDB × Except AppError Bool :=
  match runTransaction (withFault (deleteReviewSteps id) fault) st with
  | .ok st' => (st', .ok true)
  | .error e => (st, .error ⟨"Error deleting review: " ++ e.message, 500⟩)

/-- Modelled from the spec: `mediaService.getImageById` is not under `src/`
(only `controllers/mediaController.js` is); per §4.3 `getById` returns the
row or a null signal. -/
def getImageById (st : RDB) (id : Nat) : Option ImageRow :=
  (st.images.filter (fun im => im.id == id)).head?

/-- Modelled from the spec: `mediaService.deleteImage` is not under `src/`;
per §4.5/§8 the owner-initiated delete is a soft delete — the row stays
present with `is_active = false`. -/
def deleteImageService (st : RDB) (id : Nat) : RDB :=
  { st with images := st.images.map (fun im =>
    if im.id == id then { im with is_active := false } else im) }

/-! ## Controllers (ratingController.js, mediaController.js) -/

/-- `req.user` as set by `verifyToken`: the resolved internal user id and
role names. -/
structure AuthUser where
  userId : Nat
  roles : List String
deriving Repr, DecidableEq

/-- The observable HTTP outcome of a controller: status code and message
(both for `res.status(..).json(..)` and for `next(createError(..))`). -/
structure HttpResponse where
  status : Nat
  message : String
deriving Repr, DecidableEq

/-- `updateRating` controller (`ratingController.js:77-101`): 404 when the
rating is missing; 403 when the requester is neither the rating's owner
nor an `Admin`; otherwise run the service update.  (The db layer is
modelled from spec §6; per §3 the ownership comparison `rating.userId !==
req.user.userId` reads the loaded row's `user_id` owner column.) -/
def updateRatingController (st : RDB) (user : AuthUser) (id : Nat)
    (ratingValue : Int) : RDB × HttpResponse :=
  match getRatingById st id with
  | none => (st, ⟨404, "Rating not found"⟩)
  | some rating =>
    if rating.user_id != user.userId && !(user.roles.contains "Admin") then
      (st, ⟨403, "Not authorized to update this rating"⟩)
    else
      let (st', _) := updateRating st id ratingValue
      (st', ⟨200, "Rating updated successfully"⟩)

/-- `deleteRating` controller (`ratingController.js:106-127`). -/
def deleteRatingController (st : RDB) (user : AuthUser) (id : Nat) :
    RDB × HttpResponse :=
  match getRatingById st id with
  | none => (st, ⟨404, "Rating not found"⟩)
  | some rating =>
    if rating.user_id != user.userId && !(user.roles.contains "Admin") then
      (st, ⟨403, "Not authorized to delete this rating"⟩)
    else
      match deleteRating st none id with
      | (st', .ok _) => (st', ⟨200, "Rating deleted successfully"⟩)
      | (st', .error e) => (st', ⟨500, e.message⟩)

/-- `updateReview` controller (`ratingController.js:170-195`). -/
def updateReviewController (st : RDB) (user : AuthUser) (id : Nat)
    (d : ReviewUpdateInput) : RDB × HttpResponse :=
  match getReviewById st id with
  | none => (st, ⟨404, "Review not found"⟩)
  | some existingReview =>
    if existingReview.review.user_id != user.userId &&
        !(user.roles.contains "Admin") then
      (st, ⟨403, "Not authorized to update this review"⟩)
    else
      let (st', _) := updateReview st id d
      (st', ⟨200, "Review updated successfully"⟩)

/-- `deleteReview` controller (`ratingController.js:200-221`). -/
def deleteReviewController (st : RDB) (user : AuthUser) (id : Nat) :
    RDB × HttpResponse :=
  match getReviewById st id with
  | none => (st, ⟨404, "Review not found"⟩)
  | some review =>
    if review.review.user_id != user.userId && !(user.roles.contains "Admin") then
      (st, ⟨403, "Not authorized to delete this review"⟩)
    else
      match deleteReview st none id with
      | (st', .ok _) => (st', ⟨200, "Review deleted successfully"⟩)
      | (st', .error e) => (st', ⟨500, e.message⟩)

/-- `deleteImage` controller (`mediaController.js:62-88`): 404 when missing;
403 unless the requester owns the image or is an `Admin`; otherwise the
soft delete. -/
def deleteImageController (st : RDB) (user : AuthUser) (id : Nat) :
    RDB × HttpResponse :=
  match getImageById st id with
  | none => (st, ⟨404, "Image not found"⟩)
  | some image =>
    let isOwner := image.user_id == user.userId
    let isAdmin := user.roles.contains "Admin"
    if !isOwner && !isAdmin then
      (st, ⟨403, "Not authorized to delete this image"⟩)
    else
      (deleteImageService st id, ⟨200, "Image deleted successfully"⟩)

/-- C5: a requester who is not the resource owner and holds no `Admin` role
receives a 403 from `updateRating`, `deleteRating`, `updateReview`,
`deleteReview` and `deleteImage`, and the state is left unchanged. -/
theorem C5_ownership_forbidden (st : RDB) (user : AuthUser) (id : Nat)
    (rv : Int) (d : ReviewUpdateInput)
    (hAdmin : user.roles.contains "Admin" = false) :
    (∀ r, getRatingById st id = some r → ¬ r.user_id = user.userId →
      updateRatingController st user id rv =
        (st, ⟨403, "Not authorized to update this rating"⟩)) ∧
    (∀ r, getRatingById st id = some r → ¬ r.user_id = user.userId →
      deleteRatingController st user id =
        (st, ⟨403, "Not authorized to delete this rating"⟩)) ∧
    (∀ r, getReviewById st id = some r → ¬ r.review.user_id = user.userId →
      updateReviewController st user id d =
        (st, ⟨403, "Not authorized to update this review"⟩)) ∧
    (∀ r, getReviewById st id = some r → ¬ r.review.user_id = user.userId →
      deleteReviewController st user id =
        (st, ⟨403, "Not authorized to delete this review"⟩)) ∧
    (∀ im, getImageById st id = some im → ¬ im.user_id = user.userId →
      deleteImageController st user id =
        (st, ⟨403, "Not authorized to delete this image"⟩)) := by
  have hA : ¬ "Admin" ∈ user.roles := by simpa using hAdmin
  refine ⟨?_, ?_, ?_, ?_, ?_⟩
  · intro r h1 h2
    simp only [updateRatingController, h1]
    rw [if_pos (by simp [hA, h2])]
  · intro r h1 h2
    simp only [deleteRatingController, h1]
    rw [if_pos (by simp [hA, h2])]
  · intro r h1 h2
    simp only [updateReviewController, h1]
    rw [if_pos (by simp [hA, h2])]
  · intro r h1 h2
    simp only [deleteReviewController, h1]
    rw [if_pos (by simp [hA, h2])]
  · intro im h1 h2
    simp only [deleteImageController, h1]
    rw [if_pos (by simp [hA, h2])]

theorem C5_ownership_forbidden_witness :
    (∀ r, getRatingById
        ⟨[⟨1, none, none, none, some "P", none, 5, none, 1, 0⟩],
         [⟨1, 1, some "t", some "P", some false, true, 1, none, 0⟩],
         [⟨1, none, none, some 1, none, 1, "u", 0, true, none⟩],
         [], [], [], 2, 1⟩ 1 = some r → ¬ r.user_id = (AuthUser.mk 2 []).userId →
      updateRatingController
        ⟨[⟨1, none, none, none, some "P", none, 5, none, 1, 0⟩],
         [⟨1, 1, some "t", some "P", some false, true, 1, none, 0⟩],
         [⟨1, none, none, some 1, none, 1, "u", 0, true, none⟩],
         [], [], [], 2, 1⟩ ⟨2, []⟩ 1 3 =
        (⟨[⟨1, none, none, none, some "P", none, 5, none, 1, 0⟩],
          [⟨1, 1, some "t", some "P", some false, true, 1, none, 0⟩],
          [⟨1, none, none, some 1, none, 1, "u", 0, true, none⟩],
          [], [], [], 2, 1⟩, ⟨403, "Not authorized to update this rating"⟩)) ∧
    (∀ r, getRatingById
        ⟨[⟨1, none, none, none, some "P", none, 5, none, 1, 0⟩],
         [⟨1, 1, some "t", some "P", some false, true, 1, none, 0⟩],
         [⟨1, none, none, some 1, none, 1, "u", 0, true, none⟩],
         [], [], [], 2, 1⟩ 1 = some r → ¬ r.user_id = (AuthUser.mk 2 []).userId →
      deleteRatingController
        ⟨[⟨1, none, none, none, some "P", none, 5, none, 1, 0⟩],
         [⟨1, 1, some "t", some "P", some false, true, 1, none, 0⟩],
         [⟨1, none, none, some 1, none, 1, "u", 0, true, none⟩],
         [], [], [], 2, 1⟩ ⟨2, []⟩ 1 =
        (⟨[⟨1, none, none, none, some "P", none, 5, none, 1, 0⟩],
          [⟨1, 1, some "t", some "P", some false, true, 1, none, 0⟩],
          [⟨1, none, none, some 1, none, 1, "u", 0, true, none⟩],
          [], [], [], 2, 1⟩, ⟨403, "Not authorized to delete this rating"⟩)) ∧
    (∀ r, getReviewById
        ⟨[⟨1, none, none, none, some "P", none, 5, none, 1, 0⟩],
         [⟨1, 1, some "t", some "P", some false, true, 1, none, 0⟩],
         [⟨1, none, none, some 1, none, 1, "u", 0, true, none⟩],
         [], [], [], 2, 1⟩ 1 = some r → ¬ r.review.user_id = (AuthUser.mk 2 []).userId →
      updateReviewController
        ⟨[⟨1, none, none, none, some "P", none, 5, none, 1, 0⟩],
         [⟨1, 1, some "t", some "P", some false, true, 1, none, 0⟩],
         [⟨1, none, none, some 1, none, 1, "u", 0, true, none⟩],
         [], [], [], 2, 1⟩ ⟨2, []⟩ 1 ⟨none, none⟩ =
        (⟨[⟨1, none, none, none, some "P", none, 5, none, 1, 0⟩],
          [⟨1, 1, some "t", some "P", some false, true, 1, none, 0⟩],
          [⟨1, none, none, some 1, none, 1, "u", 0, true, none⟩],
          [], [], [], 2, 1⟩, ⟨403, "Not authorized to update this review"⟩)) ∧
    (∀ r, getReviewById
        ⟨[⟨1, none, none, none, some "P", none, 5, none, 1, 0⟩],
         [⟨1, 1, some "t", some "P", some false, true, 1, none, 0⟩],
         [⟨1, none, none, some 1, none, 1, "u", 0, true, none⟩],
         [], [], [], 2, 1⟩ 1 = some r → ¬ r.review.user_id = (AuthUser.mk 2 []).userId →
      deleteReviewController
        ⟨[⟨1, none, none, none, some "P", none, 5, none, 1, 0⟩],
         [⟨1, 1, some "t", some "P", some false, true, 1, none, 0⟩],
         [⟨1, none, none, some 1, none, 1, "u", 0, true, none⟩],
         [], [], [], 2, 1⟩ ⟨2, []⟩ 1 =
        (⟨[⟨1, none, none, none, some "P", none, 5, none, 1, 0⟩],
          [⟨1, 1, some "t", some "P", some false, true, 1, none, 0⟩],
          [⟨1, none, none, some 1, none, 1, "u", 0, true, none⟩],
          [], [], [], 2, 1⟩, ⟨403, "Not authorized to delete this review"⟩)) ∧
    (∀ im, getImageById
        ⟨[⟨1, none, none, none, some "P", none, 5, none, 1, 0⟩],
         [⟨1, 1, some "t", some "P", some false, true, 1, none, 0⟩],
         [⟨1, none, none, some 1, none, 1, "u", 0, true, none⟩],
         [], [], [], 2, 1⟩ 1 = some im → ¬ im.user_id = (AuthUser.mk 2 []).userId →
      deleteImageController
        ⟨[⟨1, none, none, none, some "P", none, 5, none, 1, 0⟩],
         [⟨1, 1, some "t", some "P", some false, true, 1, none, 0⟩],
         [⟨1, none, none, some 1, none, 1, "u", 0, true, none⟩],
         [], [], [], 2, 1⟩ ⟨2, []⟩ 1 =
        (⟨[⟨1, none, none, none, some "P", none, 5, none, 1, 0⟩],
          [⟨1, 1, some "t", some "P", some false, true, 1, none, 0⟩],
          [⟨1, none, none, some 1, none, 1, "u", 0, true, none⟩],
          [], [], [], 2, 1⟩, ⟨403, "Not authorized to delete this image"⟩)) :=
  C5_ownership_forbidden
    ⟨[⟨1, none, none, none, some "P", none, 5, none, 1, 0⟩],
     [⟨1, 1, some "t", some "P", some false, true, 1, none, 0⟩],
     [⟨1, none, none, some 1, none, 1, "u", 0, true, none⟩],
     [], [], [], 2, 1⟩ ⟨2, []⟩ 1 3 ⟨none, none⟩ (by decide)

/-! ## adminService.js: the user domain (C6, C9, C10) and auth middleware (C8) -/

structure RoleRow where
  id : Nat
  role : String
deriving Repr, DecidableEq

structure SecondaryUserRole where
  user_id : Nat
  role_id : Nat
deriving Repr, DecidableEq

structure DeletedUserRow where
  user_id : Nat
  deleted_datetime : Nat
deriving Repr, DecidableEq

/-- The relational state touched by `adminService.js` and
`middleware/auth.js`.  `nextUserId` models the database's surrogate-id
sequence. -/
structure UDB where
  users : List UserRow
  roles : List RoleRow
  secondaryUserRoles : List SecondaryUserRole
  deletedUsers : List DeletedUserRow
  nextUserId : Nat
deriving Repr, DecidableEq

/-- The `LEFT JOIN roles r ON u.primary_role_id = r.id` used by every user
getter: attach the role name when the role row exists. -/
def joinRole (st : UDB) (u : UserRow) : UserRow × Option String :=
  (u, (st.roles.find? (fun r => r.id == u.primary_role_id)).map (fun r => r.role))

/-- `getUserById(id)` (`adminService.js:1263-1280`):
`WHERE u.id = $1 AND u.is_deleted = FALSE`, left-joined with the role. -/
def getUserById (st : UDB) (id : Nat) : Option (UserRow × Option String) :=
  ((st.users.filter (fun u => u.id == id && !u.is_deleted)).map (joinRole st)).head?

/-- `getUserByFirebaseUid(firebaseUid)` (`adminService.js:1287-1304`):
`WHERE u.firebase_uid = $1 AND u.is_deleted = FALSE`. -/
def getUserByFirebaseUid (st : UDB) (fuid : String) :
    Option (UserRow × Option String) :=
  ((st.users.filter (fun u => u.firebase_uid == fuid && !u.is_deleted)).map
    (joinRole st)).head?

/-- `getUserByEmail(email)` (`adminService.js:1311-1328`):
`WHERE u.email = $1 AND u.is_deleted = FALSE`. -/
def getUserByEmail (st : UDB) (email : String) :
    Option (UserRow × Option String) :=
  ((st.users.filter (fun u => u.email == email && !u.is_deleted)).map
    (joinRole st)).head?

/-- The input object of `createUser` (`adminService.js:1335-1381`). -/
structure CreateUserInput where
  firebaseUid : String
  email : String
  firstName : String
  lastName : String
  telephone : String
  displayName : String
  photoUrl : String
  primaryRoleId : Nat
  isActive : Bool
  isGuest : Bool
deriving Repr, DecidableEq

/-- `createUser(userData)` (`adminService.js:1335-1381`): insert with
`is_deleted = FALSE` and the three timestamps set to now (the JS builds
`isActive: isActive || true` — always true — and `isGuest: isGuest ||
false`, `photoUrl: photoUrl || ''`), then re-read the joined row. -/
def createUser (st : UDB) (d : CreateUserInput) (now : Nat) :
    UDB × Option (UserRow × Option String) :=
  let row : UserRow :=
    { id := st.nextUserId
      firebase_uid := d.firebaseUid
      email := d.email
      first_name := d.firstName
      last_name := d.lastName
      telephone := d.telephone
      is_guest := d.isGuest || false
      display_name := d.displayName
      photo_url := d.photoUrl
      primary_role_id := d.primaryRoleId
      is_active := d.isActive || true
      is_deleted := false
      date_created := now
      last_updated_at := now
      last_login_at := now }
  let st' := { st with users := st.users ++ [row], nextUserId := st.nextUserId + 1 }
  (st', getUserById st' st.nextUserId)

/-- `getOrCreateGuestUser(firebaseUid)` (`adminService.js:1388-1427`):
return the existing (non-deleted) user for the uid, or look up the `Guest`
role and create a fresh guest user (`displayName = Guest_<Date.now()>`). -/
def getOrCreateGuestUser (st : UDB) (fuid : String) (now : Nat) :
    Except AppError (UDB × Option (UserRow × Option String)) :=
  match getUserByFirebaseUid st fuid with
  | some existingUser => .ok (st, some existingUser)
  | none =>
    match (st.roles.filter (fun r => r.role == "Guest")).head? with
    | none => .error ⟨"Error creating guest user: Guest role not found", 500⟩
    | some guestRole =>
      .ok (createUser st
        ⟨fuid, "", "Guest", "", "", "Guest_" ++ toString now, "",
          guestRole.id, true, true⟩ now)

/-- The input object of `updateUser` (`adminService.js:1435-1489`); a field
is in `updateFields` only when it is not `undefined`. -/
structure UpdateUserInput where
  firstName : Option String := none
  lastName : Option String := none
  telephone : Option String := none
  displayName : Option String := none
  photoUrl : Option String := none
  isActive : Option Bool := none
deriving Repr, DecidableEq

/-- The SET clause columns `updateUser` builds at runtime: one entry per
present field, in the `updateFields` insertion order, each key converted
camelCase → snake_case, and `lastUpdatedAt` always appended.  (The JS
`setClauses.length === 0` early return is unreachable because
`lastUpdatedAt` is always added.) -/
def updateUserSetColumns (d : UpdateUserInput) : List String :=
  (if d.firstName.isSome then ["first_name"] else []) ++
  (if d.lastName.isSome then ["last_name"] else []) ++
  (if d.telephone.isSome then ["telephone"] else []) ++
  (if d.displayName.isSome then ["display_name"] else []) ++
  (if d.photoUrl.isSome then ["photo_url"] else []) ++
  (if d.isActive.isSome then ["is_active"] else []) ++
  ["last_updated_at"]

/-- The row-level effect of `updateUser`'s dynamic SET clause: present
fields overwrite, absent fields are untouched, `last_updated_at` is always
stamped. -/
def applyUserUpdate (d : UpdateUserInput) (now : Nat) (u : UserRow) : UserRow :=
  { u with
    first_name := d.firstName.getD u.first_name
    last_name := d.lastName.getD u.last_name
    telephone := d.telephone.getD u.telephone
    display_name := d.displayName.getD u.display_name
    photo_url := d.photoUrl.getD u.photo_url
    is_active := d.isActive.getD u.is_active
    last_updated_at := now }

/-- `updateUser(id, userData)` (`adminService.js:1435-1489`): run the
dynamic partial UPDATE, then re-read the joined row. -/
def updateUser (st : UDB) (id : Nat) (d : UpdateUserInput) (now : Nat) :
    UDB × Option (UserRow × Option String) :=
  let st' := { st with users := st.users.map (fun u =>
    if u.id == id then applyUserUpdate d now u else u) }
  (st', getUserById st' id)

/-- `markUserAsDeleted(id)` (`adminService.js:1517-1543`):
`SET is_deleted = TRUE, is_active = FALSE, last_updated_at = now`, then an
audit row in `deleted_users`. -/
def markUserAsDeleted (st : UDB) (id : Nat) (now : Nat) : UDB × Bool :=
  let st1 : UDB := { st with users := st.users.map (fun (u : UserRow) =>
    if u.id == id then
      { u with is_deleted := true, is_active := false, last_updated_at := now }
    else u) }
  ({ st1 with deletedUsers := st1.deletedUsers ++ [⟨id, now⟩] }, true)

/-- Options of `getAllUsers` (`const { page = 1, limit = 10, search, role } =
options`). -/
structure GetAllUsersOptions where
  page : Option Nat := none
  limit : Option Nat := none
  search : Option String := none
  role : Option String := none
deriving Repr, DecidableEq

/-- The WHERE conditions of `getAllUsers` (`adminService.js:1573-1630`):
always `u.is_deleted = FALSE`, plus an `ILIKE` search over first name,
last name and email, plus `r.role = $role` on the left-joined role name. -/
def getAllUsersCond (st : UDB) (o : GetAllUsersOptions) (u : UserRow) : Bool :=
  !u.is_deleted &&
  (match o.search with
   | some s =>
     ilikeContains u.first_name s || ilikeContains u.last_name s ||
       ilikeContains u.email s
   | none => true) &&
  (match o.role with
   | some ro =>
     ((st.roles.find? (fun r => r.id == u.primary_role_id)).map
       (fun r => r.role)) == some ro
   | none => true)

/-- `getAllUsers(options)` (`adminService.js:1573-1630`): filtered, ordered
by `u.id DESC`, paged with `offset = (page-1)*limit`; the count query
shares the same conditions. -/
def getAllUsers (st : UDB) (o : GetAllUsersOptions) :
    Paged (UserRow × Option String) :=
  let page := o.page.getD 1
  let limit := o.limit.getD 10
  let offset := (page - 1) * limit
  let rows := st.users.filter (getAllUsersCond st o)
  let sorted := sortBy (fun a b => Nat.ble b.id a.id) rows
  let data := ((sorted.drop offset).take limit).map (joinRole st)
  { data := data, pagination := mkPagination rows.length page limit }

/-- The first query of `getUserRole` (`middleware/auth.js:26-31`):
`SELECT u.id, u.primary_role_id, r.role FROM users u JOIN roles r ON
u.primary_role_id = r.id WHERE u.firebase_uid = $1` (note: no
`is_deleted` condition). -/
def primaryRoleRows (st : UDB) (uid : String) : List (UserRow × String) :=
  st.users.filterMap (fun u =>
    if u.firebase_uid == uid then
      (st.roles.find? (fun r => r.id == u.primary_role_id)).map
        (fun r => (u, r.role))
    else none)

/-- The second query of `getUserRole` (`middleware/auth.js:40-45`): the
names of the user's secondary roles. -/
def secondaryRoleNames (st : UDB) (userId : Nat) : List String :=
  st.secondaryUserRoles.filterMap (fun sur =>
    if sur.user_id == userId then
      (st.roles.find? (fun r => r.id == sur.role_id)).map (fun r => r.role)
    else none)

/-- What `getUserRole` resolves: `{userId, primaryRoleId, roles}`. -/
structure RoleInfo where
  userId : Nat
  primaryRoleId : Nat
  roles : List String
deriving Repr, DecidableEq

/-- `getUserRole(uid)` (`middleware/auth.js:24-63`): the first joined user
row gives the primary role, the secondary role names are appended after
it; no row means `null`.  The whole body sits in a `try` whose
`catch (error) { console.error(...); return null; }` turns EVERY thrown
error — a `dbFail` injects one, e.g. an unreachable database — into the
same `null` that signals "user not found". -/
def getUserRole (st : UDB) (dbFail : Option DBErr) (uid : String) :
    Option RoleInfo :=
  match dbFail with
  | some _ => none
  | none =>
    match (primaryRoleRows st uid).head? with
    | none => none
    | some (u, primaryRole) =>
      some ⟨u.id, u.primary_role_id, primaryRole :: secondaryRoleNames st u.id⟩

/-- Outcome of the token verification (external verifier modelled as a
black box per §6). -/
inductive TokenCheck where
  | invalid
  | valid (uid : String)
deriving Repr, DecidableEq

/-- Observable outcome of the `verifyToken` middleware. -/
inductive AuthOutcome where
  | unauthorized (message : String)
  | forbidden (message : String)
  | authorized (userId : Nat) (primaryRoleId : Nat) (roles : List String)
deriving Repr, DecidableEq

/-- `verifyToken` (`middleware/auth.js:66-97`): invalid token → 401; valid
token with no resolved role info → 403 "User not found in database";
otherwise attach the resolved info to the request. -/
def verifyTokenMw (st : UDB) (dbFail : Option DBErr) (tok : TokenCheck) :
    AuthOutcome :=
  match tok with
  | .invalid => .unauthorized "Unauthorized - Invalid token"
  | .valid uid =>
    match getUserRole st dbFail uid with
    | none => .forbidden "Forbidden - User not found in database"
    | some info => .authorized info.userId info.primaryRoleId info.roles

/-- C8 counterexample: with a user row present for `"u1"`, an injected
database failure makes `getUserRole` return `none` — the very same signal
as "no matching user row" — and `verifyToken` answers 403 "User not found
in database"; the infrastructure error is not propagated, contradicting
the claim. -/
theorem C8_db_failure_not_propagated :
    getUserRole
      ⟨[⟨1, "u1", "", "", "", "", false, "", "", 2, true, false, 0, 0, 0⟩],
       [⟨2, "Admin"⟩], [], [], 2⟩
      (some ⟨"ECONNREFUSED", "database unreachable"⟩) "u1" = none ∧
    getUserRole (⟨[], [], [], [], 1⟩ : UDB) none "u1" = none ∧
    verifyTokenMw
      ⟨[⟨1, "u1", "", "", "", "", false, "", "", 2, true, false, 0, 0, 0⟩],
       [⟨2, "Admin"⟩], [], [], 2⟩
      (some ⟨"ECONNREFUSED", "database unreachable"⟩) (.valid "u1") =
      .forbidden "Forbidden - User not found in database" ∧
    getUserRole
      ⟨[⟨1, "u1", "", "", "", "", false, "", "", 2, true, false, 0, 0, 0⟩],
       [⟨2, "Admin"⟩], [], [], 2⟩ none "u1" = some ⟨1, 2, ["Admin"]⟩ :=
  ⟨rfl, rfl, rfl, rfl⟩

/-- C8 (amended): the role resolver returns `{userId, primaryRoleId,
roles}` with the primary role first followed by the secondary roles, or
`none` when no user row matches (and `verifyToken` maps that to 403,
distinct from the 401 of an invalid token); but a database failure is
caught inside `getUserRole` and converted into the same `none` / 403
outcome rather than propagated as an infrastructure error. -/
theorem C8_role_resolver (st : UDB) (uid : String) :
    (∀ e : DBErr, getUserRole st (some e) uid = none) ∧
    (∀ u role, (primaryRoleRows st uid).head? = some (u, role) →
      getUserRole st none uid =
        some ⟨u.id, u.primary_role_id, role :: secondaryRoleNames st u.id⟩) ∧
    ((primaryRoleRows st uid).head? = none → getUserRole st none uid = none) ∧
    (verifyTokenMw st none .invalid =
      .unauthorized "Unauthorized - Invalid token") ∧
    (∀ dbFail, getUserRole st dbFail uid = none →
      verifyTokenMw st dbFail (.valid uid) =
        .forbidden "Forbidden - User not found in database") ∧
    (∀ info, getUserRole st none uid = some info →
      verifyTokenMw st none (.valid uid) =
        .authorized info.userId info.primaryRoleId info.roles) := by
  refine ⟨fun e => rfl, ?_, ?_, rfl, ?_, ?_⟩
  · intro u role h
    simp only [getUserRole, h]
  · intro h
    simp only [getUserRole, h]
  · intro dbFail h
    simp only [verifyTokenMw, h]
  · intro info h
    simp only [verifyTokenMw, h]

/-! ## C6: partial updates -/

/-- C6 counterexample: `updateReview` on a review whose text is
`some "Great"` with an input that provides neither field (`review` and
`isPrivate` both `undefined`) still writes both columns — the stored
`review` becomes NULL instead of staying `some "Great"` — and both columns
sit in the SET clause although neither field was present in the input. -/
theorem C6_absent_fields_overwritten :
    (updateReview
      ⟨[⟨1, none, none, none, some "P", none, 5, none, 1, 0⟩],
       [⟨1, 1, some "Great", some "P", some false, true, 1, none, 0⟩],
       [], [], [], [], 2, 1⟩ 1 ⟨none, none⟩).1.reviews =
      [⟨1, 1, none, some "P", none, true, 1, none, 0⟩] ∧
    "review" ∈ updateReviewSetColumns ∧
    "is_private" ∈ updateReviewSetColumns ∧
    "rating_value" ∈ updateRatingSetColumns := by
  refine ⟨?_, ?_, ?_, ?_⟩ <;> decide

/-- C6 (amended): `updateUser` includes in its SET clause exactly the
columns of the fields present in the input plus an always-stamped
`last_updated_at`, and leaves every absent field untouched in the stored
row; but `updateReview` and `updateRating` use fixed SET clauses that
always assign `review`/`is_private` and `rating_value` respectively, so an
absent input field overwrites the stored value (with NULL) instead of
leaving it untouched. -/
theorem C6_partial_update (stu : UDB) (st : RDB) (idu idr : Nat)
    (d : UpdateUserInput) (dr : ReviewUpdateInput) (now : Nat) :
    (("first_name" ∈ updateUserSetColumns d ↔ d.firstName.isSome) ∧
     ("last_name" ∈ updateUserSetColumns d ↔ d.lastName.isSome) ∧
     ("telephone" ∈ updateUserSetColumns d ↔ d.telephone.isSome) ∧
     ("display_name" ∈ updateUserSetColumns d ↔ d.displayName.isSome) ∧
     ("photo_url" ∈ updateUserSetColumns d ↔ d.photoUrl.isSome) ∧
     ("is_active" ∈ updateUserSetColumns d ↔ d.isActive.isSome) ∧
     "last_updated_at" ∈ updateUserSetColumns d) ∧
    (∀ u : UserRow,
      (d.firstName = none → (applyUserUpdate d now u).first_name = u.first_name) ∧
      (d.lastName = none → (applyUserUpdate d now u).last_name = u.last_name) ∧
      (d.telephone = none → (applyUserUpdate d now u).telephone = u.telephone) ∧
      (d.displayName = none →
        (applyUserUpdate d now u).display_name = u.display_name) ∧
      (d.photoUrl = none → (applyUserUpdate d now u).photo_url = u.photo_url) ∧
      (d.isActive = none → (applyUserUpdate d now u).is_active = u.is_active) ∧
      (applyUserUpdate d now u).last_updated_at = now) ∧
    (∀ u ∈ stu.users, ¬ u.id = idu → u ∈ (updateUser stu idu d now).1.users) ∧
    (∀ u ∈ stu.users, u.id = idu →
      applyUserUpdate d now u ∈ (updateUser stu idu d now).1.users) ∧
    (updateReviewSetColumns = ["review", "is_private"] ∧
     updateRatingSetColumns = ["rating_value"]) ∧
    (∀ r ∈ st.reviews, r.id = idr →
      { r with review := dr.review, is_private := dr.isPrivate } ∈
        (updateReview st idr dr).1.reviews) := by
  refine ⟨⟨?_, ?_, ?_, ?_, ?_, ?_, ?_⟩, ?_, ?_, ?_, ⟨rfl, rfl⟩, ?_⟩
  · cases h : d.firstName <;> simp [updateUserSetColumns, h]
  · cases h : d.lastName <;> simp [updateUserSetColumns, h]
  · cases h : d.telephone <;> simp [updateUserSetColumns, h]
  · cases h : d.displayName <;> simp [updateUserSetColumns, h]
  · cases h : d.photoUrl <;> simp [updateUserSetColumns, h]
  · cases h : d.isActive <;> simp [updateUserSetColumns, h]
  · simp [updateUserSetColumns]
  · intro u
    refine ⟨?_, ?_, ?_, ?_, ?_, ?_, rfl⟩ <;> intro h <;> simp [applyUserUpdate, h]
  · intro u hu hne
    simp only [updateUser]
    exact List.mem_map.2 ⟨u, hu, by simp [hne]⟩
  · intro u hu heq
    simp only [updateUser]
    exact List.mem_map.2 ⟨u, hu, by simp [heq]⟩
  · intro r hr heq
    simp only [updateReview]
    exact List.mem_map.2 ⟨r, hr, by simp [heq]⟩

/-! ## C7: the rating_value range invariant at the write path -/

/-- The input object of `createRating` (`ratingService.js:163-203`). -/
structure RatingInput where
  businessTypeId : Option Nat
  eduLocationId : Option Nat
  placeAddress : Option String
  placeId : Option String
  placeName : Option String
  ratingValue : Int
  subcategory : Option String
  userId : Nat
deriving Repr, DecidableEq

/-- `createRating(ratingData)` (`ratingService.js:163-203`): the INSERT
persists `parseInt(ratingValue)` — no range check anywhere on the path —
then re-reads the row by its new id. -/
def createRating (st : RDB) (d : RatingInput) (now : Nat) :
    RDB × Option RatingRow :=
  let row : RatingRow :=
    ⟨st.nextRatingId, d.businessTypeId, d.eduLocationId, d.placeAddress,
      d.placeId, d.placeName, d.ratingValue, d.subcategory, d.userId, now⟩
  let st' : RDB := { st with
    ratings := st.ratings ++ [row]
    nextRatingId := st.nextRatingId + 1 }
  (st', getRatingById st' st.nextRatingId)

/-- `ratingValidationRules.createRating`'s range rule on `ratingValue`
(unnamed part_007, lines 31-41: `isInt` with min 1 and max 5, message
"Rating must be between 1 and 5").  The rule is declared in the validation
module but attached to no rating route: `ratingRoutes.js` registers the
controllers bare. -/
def ratingValueRule (v : Int) : Bool := decide (1 ≤ v) && decide (v ≤ 5)

/-- C7 evidence: the declared validation rule rejects 7, yet `createRating`
happily persists `rating_value = 7` and returns it — the 1..5 invariant is
not enforced at the write path. -/
theorem C7_range_not_enforced :
    ratingValueRule 7 = false ∧
    (createRating ⟨[], [], [], [], [], [], 1, 1⟩
      ⟨none, none, none, some "P1", none, 7, none, 42⟩ 0).2 =
      some ⟨1, none, none, none, some "P1", none, 7, none, 42, 0⟩ ∧
    ∃ r ∈ (createRating ⟨[], [], [], [], [], [], 1, 1⟩
      ⟨none, none, none, some "P1", none, 7, none, 42⟩ 0).1.ratings,
      r.rating_value = 7 := by
  refine ⟨rfl, rfl, ?_⟩
  exact ⟨⟨1, none, none, none, some "P1", none, 7, none, 42, 0⟩, by simp [createRating], rfl⟩

/-! ## C9: guest login idempotence -/

/-- C9: under a well-formed id sequence and an existing `Guest` role,
calling `getOrCreateGuestUser` twice with the same firebase uid succeeds
both times with the same internal user id, creates at most one user row
(the first call), and the second call creates nothing. -/
theorem C9_guest_login_idempotent (st : UDB) (fuid : String) (now now2 : Nat)
    (hfresh : ∀ u ∈ st.users, u.id < st.nextUserId)
    (hguest : ((st.roles.filter (fun r => r.role == "Guest")).head?).isSome) :
    ∃ st1 u1 r1 st2 u2 r2,
      getOrCreateGuestUser st fuid now = .ok (st1, some (u1, r1)) ∧
      getOrCreateGuestUser st1 fuid now2 = .ok (st2, some (u2, r2)) ∧
      u2.id = u1.id ∧ st2 = st1 ∧
      st1.users.length ≤ st.users.length + 1 ∧
      st2.users.length = st1.users.length := by
  cases hex : getUserByFirebaseUid st fuid with
  | some p =>
    obtain ⟨u, r⟩ := p
    exact ⟨st, u, r, st, u, r,
      by simp only [getOrCreateGuestUser, hex],
      by simp only [getOrCreateGuestUser, hex],
      rfl, rfl, Nat.le_succ _, rfl⟩
  | none =>
    obtain ⟨guestRole, hrole⟩ := Option.isSome_iff_exists.1 hguest
    have hfilnil : st.users.filter
        (fun u => u.firebase_uid == fuid && !u.is_deleted) = [] := by
      have hmap : (st.users.filter
          (fun u => u.firebase_uid == fuid && !u.is_deleted)).map (joinRole st)
          = [] := by
        rw [← List.head?_eq_none_iff]
        exact hex
      exact List.map_eq_nil.1 hmap
    set row : UserRow :=
      { id := st.nextUserId
        firebase_uid := fuid
        email := ""
        first_name := "Guest"
        last_name := ""
        telephone := ""
        is_guest := true || false
        display_name := "Guest_" ++ toString now
        photo_url := ""
        primary_role_id := guestRole.id
        is_active := true || true
        is_deleted := false
        date_created := now
        last_updated_at := now
        last_login_at := now } with hrow
    set st1 : UDB := { st with
      users := st.users ++ [row]
      nextUserId := st.nextUserId + 1 } with hst1
    have hidfil : st.users.filter
        (fun u => u.id == st.nextUserId && !u.is_deleted) = [] := by
      rw [List.filter_eq_nil]
      intro u hu
      have hlt := hfresh u hu
      simp only [Bool.and_eq_true, beq_iff_eq, not_and]
      intro he
      omega
    have hget1 : getUserById st1 st.nextUserId = some (joinRole st1 row) := by
      simp only [getUserById, hst1]
      rw [List.filter_append]
      have h2 : st.users.filter
          (fun u => u.id == st.nextUserId && !u.is_deleted) = [] := hidfil
      rw [h2]
      simp [hrow]
    have hget2 : getUserByFirebaseUid st1 fuid = some (joinRole st1 row) := by
      simp only [getUserByFirebaseUid, hst1]
      rw [List.filter_append, hfilnil]
      simp [hrow]
    refine ⟨st1, row, (joinRole st1 row).2, st1, row, (joinRole st1 row).2,
      ?_, ?_, rfl, rfl, ?_, rfl⟩
    · simp only [getOrCreateGuestUser, hex, hrole, createUser]
      rw [hget1]
      rfl
    · simp only [getOrCreateGuestUser, hget2]
      rfl
    · simp [hst1]

theorem C9_guest_login_idempotent_witness :
    ∃ st1 u1 r1 st2 u2 r2,
      getOrCreateGuestUser (⟨[], [⟨1, "Guest"⟩], [], [], 1⟩ : UDB) "g1" 5 =
        .ok (st1, some (u1, r1)) ∧
      getOrCreateGuestUser st1 "g1" 6 = .ok (st2, some (u2, r2)) ∧
      u2.id = u1.id ∧ st2 = st1 ∧
      st1.users.length ≤ (⟨[], [⟨1, "Guest"⟩], [], [], 1⟩ : UDB).users.length + 1 ∧
      st2.users.length = st1.users.length :=
  C9_guest_login_idempotent ⟨[], [⟨1, "Guest"⟩], [], [], 1⟩ "g1" 5 6
    (by simp) (by decide)

/-! ## C10: soft delete excludes users from every read -/

theorem head_filter_not_deleted (st : UDB) (pred : UserRow → Bool)
    (p : UserRow × Option String)
    (h : ((st.users.filter (fun u => pred u && !u.is_deleted)).map
      (joinRole st)).head? = some p) : p.1.is_deleted = false := by
  cases hl : st.users.filter (fun u => pred u && !u.is_deleted) with
  | nil => rw [hl] at h; cases h
  | cons u rest =>
    rw [hl] at h
    simp only [List.map_cons, List.head?_cons, Option.some.injEq] at h
    have hu : u ∈ st.users.filter (fun u => pred u && !u.is_deleted) := by
      rw [hl]; exact List.mem_cons_self _ _
    have := (List.mem_filter.1 hu).2
    simp only [Bool.and_eq_true, Bool.not_eq_eq_eq_not, Bool.not_true] at this
    rw [← h]
    exact this.2

/-- C10: every user read filters `is_deleted = FALSE`, so after
`markUserAsDeleted(id)` (which flips `is_deleted`/`is_active`, stamps
`last_updated_at` and appends the audit row) `getUserById(id)` is null and
no `getAllUsers` page contains the user, although the row still exists;
moreover every row any of the four getters can return has
`is_deleted = false`. -/
theorem C10_soft_delete_excludes (st : UDB) (id now : Nat)
    (hex : ∃ u ∈ st.users, u.id = id) :
    (markUserAsDeleted st id now).2 = true ∧
    getUserById (markUserAsDeleted st id now).1 id = none ∧
    (∀ o : GetAllUsersOptions,
      ∀ p ∈ (getAllUsers (markUserAsDeleted st id now).1 o).data, ¬ p.1.id = id) ∧
    (∃ u ∈ (markUserAsDeleted st id now).1.users,
      u.id = id ∧ u.is_deleted = true ∧ u.is_active = false ∧
        u.last_updated_at = now) ∧
    (markUserAsDeleted st id now).1.users.length = st.users.length ∧
    (⟨id, now⟩ : DeletedUserRow) ∈ (markUserAsDeleted st id now).1.deletedUsers ∧
    (∀ q p, getUserById (markUserAsDeleted st id now).1 q = some p →
      p.1.is_deleted = false) ∧
    (∀ q p, getUserByFirebaseUid (markUserAsDeleted st id now).1 q = some p →
      p.1.is_deleted = false) ∧
    (∀ q p, getUserByEmail (markUserAsDeleted st id now).1 q = some p →
      p.1.is_deleted = false) := by
  have hdel : ∀ u' ∈ (markUserAsDeleted st id now).1.users,
      u'.id = id → u'.is_deleted = true := by
    intro u' hu' hid
    simp only [markUserAsDeleted, List.mem_map] at hu'
    obtain ⟨u, hu, hfu⟩ := hu'
    by_cases h : (u.id == id) = true
    · rw [if_pos h] at hfu
      rw [← hfu]
    · rw [if_neg h] at hfu
      exfalso
      apply h
      rw [hfu]
      simp [hid]
  refine ⟨rfl, ?_, ?_, ?_, ?_, ?_, ?_, ?_, ?_⟩
  · have hfil : (markUserAsDeleted st id now).1.users.filter
        (fun u => u.id == id && !u.is_deleted) = [] := by
      rw [List.filter_eq_nil]
      intro u' hu'
      simp only [Bool.and_eq_true, Bool.not_eq_eq_eq_not, Bool.not_true,
        beq_iff_eq, not_and]
      intro hid
      rw [hdel u' hu' hid]
      simp
    simp only [getUserById, hfil, List.map_nil, List.head?_nil]
  · intro o p hp
    simp only [getAllUsers, List.mem_map] at hp
    obtain ⟨u', hu', hju⟩ := hp
    have h1 : u' ∈ sortBy (fun a b => Nat.ble b.id a.id)
        ((markUserAsDeleted st id now).1.users.filter
          (getAllUsersCond (markUserAsDeleted st id now).1 o)) :=
      List.mem_of_mem_drop (List.mem_of_mem_take hu')
    have h2 := (mem_sortBy _ _ _).1 h1
    have h3 := List.mem_filter.1 h2
    have h4 : u'.is_deleted = false := by
      have := h3.2
      simp only [getAllUsersCond, Bool.and_eq_true, Bool.not_eq_eq_eq_not,
        Bool.not_true] at this
      exact this.1.1
    intro hid
    have hp1 : p.1 = u' := (congrArg Prod.fst hju).symm
    rw [hp1] at hid
    rw [hdel u' h3.1 hid] at h4
    cases h4
  · obtain ⟨u, hu, hid⟩ := hex
    refine ⟨{ u with is_deleted := true, is_active := false, last_updated_at := now },
      ?_, hid, rfl, rfl, rfl⟩
    simp only [markUserAsDeleted, List.mem_map]
    exact ⟨u, hu, by rw [if_pos (by simp [hid])]⟩
  · simp [markUserAsDeleted]
  · simp [markUserAsDeleted]
  · intro q p h
    exact head_filter_not_deleted _ (fun u => u.id == q) p h
  · intro q p h
    exact head_filter_not_deleted _ (fun u => u.firebase_uid == q) p h
  · intro q p h
    exact head_filter_not_deleted _ (fun u => u.email == q) p h

theorem C10_soft_delete_excludes_witness :
    (markUserAsDeleted
      ⟨[⟨1, "u1", "e", "f", "l", "t", false, "d", "p", 1, true, false, 0, 0, 0⟩],
       [], [], [], 2⟩ 1 9).2 = true ∧
    getUserById (markUserAsDeleted
      ⟨[⟨1, "u1", "e", "f", "l", "t", false, "d", "p", 1, true, false, 0, 0, 0⟩],
       [], [], [], 2⟩ 1 9).1 1 = none ∧
    (∀ o : GetAllUsersOptions,
      ∀ p ∈ (getAllUsers (markUserAsDeleted
        ⟨[⟨1, "u1", "e", "f", "l", "t", false, "d", "p", 1, true, false, 0, 0, 0⟩],
         [], [], [], 2⟩ 1 9).1 o).data, ¬ p.1.id = 1) ∧
    (∃ u ∈ (markUserAsDeleted
      ⟨[⟨1, "u1", "e", "f", "l", "t", false, "d", "p", 1, true, false, 0, 0, 0⟩],
       [], [], [], 2⟩ 1 9).1.users,
      u.id = 1 ∧ u.is_deleted = true ∧ u.is_active = false ∧
        u.last_updated_at = 9) ∧
    (markUserAsDeleted
      ⟨[⟨1, "u1", "e", "f", "l", "t", false, "d", "p", 1, true, false, 0, 0, 0⟩],
       [], [], [], 2⟩ 1 9).1.users.length =
      (⟨[⟨1, "u1", "e", "f", "l", "t", false, "d", "p", 1, true, false, 0, 0, 0⟩],
       [], [], [], 2⟩ : UDB).users.length ∧
    (⟨1, 9⟩ : DeletedUserRow) ∈ (markUserAsDeleted
      ⟨[⟨1, "u1", "e", "f", "l", "t", false, "d", "p", 1, true, false, 0, 0, 0⟩],
       [], [], [], 2⟩ 1 9).1.deletedUsers ∧
    (∀ q p, getUserById (markUserAsDeleted
      ⟨[⟨1, "u1", "e", "f", "l", "t", false, "d", "p", 1, true, false, 0, 0, 0⟩],
       [], [], [], 2⟩ 1 9).1 q = some p → p.1.is_deleted = false) ∧
    (∀ q p, getUserByFirebaseUid (markUserAsDeleted
      ⟨[⟨1, "u1", "e", "f", "l", "t", false, "d", "p", 1, true, false, 0, 0, 0⟩],
       [], [], [], 2⟩ 1 9).1 q = some p → p.1.is_deleted = false) ∧
    (∀ q p, getUserByEmail (markUserAsDeleted
      ⟨[⟨1, "u1", "e", "f", "l", "t", false, "d", "p", 1, true, false, 0, 0, 0⟩],
       [], [], [], 2⟩ 1 9).1 q = some p → p.1.is_deleted = false) :=
  C10_soft_delete_excludes
    ⟨[⟨1, "u1", "e", "f", "l", "t", false, "d", "p", 1, true, false, 0, 0, 0⟩],
     [], [], [], 2⟩ 1 9
    ⟨⟨1, "u1", "e", "f", "l", "t", false, "d", "p", 1, true, false, 0, 0, 0⟩,
      by simp, rfl⟩
